import Mathlib

set_option maxRecDepth 10000

/-!
Verification of the OpenAI API blueprint service against its specification.

The definitions below are a shallow embedding of the Python sources:

* `core/security.py` — `get_api_key` (the bearer-token gate with format,
  length and allow-list checks);
* `api/v1/endpoints/models.py` — the `get_api_key` variant actually wired
  into every authenticated route, plus the model registry endpoints;
* `services/model_service.py` — `AVAILABLE_MODELS`, `get_model`;
* `api/v1/endpoints/chat.py` — `generate_streaming_response` and
  `create_chat_completion`;
* `utils/stream.py` — SSE framing (`_serialize_chunk`, `_serialize_done`,
  `stream_response`).

Python strings are modelled as Lean `String` (both `len` and Lean
`String.length` count code points).  Nondeterministic inputs of the code
(`uuid.uuid4()` response ids, `int(time.time())` timestamps) are passed as
explicit parameters.  Dictionaries that the code builds with literal syntax
are modelled as structures whose JSON field order follows the literal's
insertion order, which is what `json.dumps` serializes.
-/

namespace Blueprint

/-- Characters treated as whitespace by Python `str.split()` (restricted to
the ASCII range; HTTP header values and the mock texts contain no non-ASCII
whitespace). -/
def isPySpace (c : Char) : Bool :=
  c = ' ' || c = '\t' || c = '\n' || c = Char.ofNat 11 || c = Char.ofNat 12 || c = '\r'

/-- Helper for `pySplit`: walk the characters, accumulating the current word
reversed in `acc`, emitting a word at each whitespace run boundary. -/
def wsSplitAux : List Char → List Char → List String
  | [], acc => if acc = [] then [] else [String.mk acc.reverse]
  | c :: rest, acc =>
    if isPySpace c then
      if acc = [] then wsSplitAux rest []
      else String.mk acc.reverse :: wsSplitAux rest []
    else wsSplitAux rest (c :: acc)

/-- Python `s.split()` with no separator argument: split on runs of
whitespace, discarding empty pieces. -/
def pySplit (s : String) : List String := wsSplitAux s.data []

/-- Python `s.lower()` (ASCII case folding, which covers the `"Bearer"`
comparison the code performs). -/
def lowerStr (s : String) : String := String.mk (s.data.map Char.toLower)

/-- Python `s.rstrip()`: drop trailing whitespace. -/
def rstripWs (s : String) : String := String.mk (s.data.reverse.dropWhile isPySpace).reverse

/-- Characters admitted by `TOKEN_PATTERN = re.compile(r"^[a-zA-Z0-9_\-\.]+$")`
in `core/security.py`. -/
def isTokenChar (c : Char) : Bool :=
  c.isAlpha || c.isDigit || c = '_' || c = '-' || c = '.'

/-- `TOKEN_PATTERN.match(token)` succeeds: non-empty and every character in
the restricted class.  (The regex `$` would also accept one trailing newline,
but tokens reaching this check come from a whitespace split and contain no
newline, so full-match is equivalent there.) -/
def tokenMatches (t : String) : Bool := t ≠ "" && t.data.all isTokenChar

/-- `MIN_TOKEN_LENGTH` from `core/config.py`. -/
def MIN_TOKEN_LENGTH : Nat := 16

/-- `Environment` enum from `core/config.py`. -/
inductive Environment where
  | development
  | test
  | staging
  | production
  deriving Repr, DecidableEq

/-- Outcome of an auth gate: either the validated token is returned, or an
`HTTPException` with an HTTP status and a stable error code is raised. -/
inductive AuthResult where
  | ok (token : String)
  | err (statusCode : Nat) (code : String)
  deriving Repr, DecidableEq

/-- The final allow-list membership check shared verbatim by
`core/security.py:107-123` and `api/v1/endpoints/models.py:63-78`:
`if not settings.api_auth_tokens or token not in settings.api_auth_tokens`
raises 401 `invalid_key`, otherwise the token is returned. -/
def tokenCheck (token : String) (allowTokens : List String) : AuthResult :=
  if allowTokens.isEmpty || !(allowTokens.contains token) then
    .err 401 "invalid_key"
  else
    .ok token

/-- The Bearer-syntax check both gates perform on a present header:
`parts = authorization.split()` has exactly two parts and
`parts[0].lower() == "bearer"`. -/
def wellFormedBearer (s : String) : Bool :=
  (pySplit s).length = 2 && lowerStr ((pySplit s).headD "") = "bearer"

/-- `get_api_key` from `api/v1/endpoints/models.py` — the dependency wired
into `/v1/models`, `/v1/models/{id}` and (imported by `chat.py`)
`/v1/chat/completions`.  `authorization = none` models an absent header;
an empty header value is also falsy in Python. -/
def endpointGetApiKey (authorization : Option String) (allowTokens : List String) : AuthResult :=
  match authorization with
  | none => .err 401 "missing_api_key"
  | some s =>
    if s = "" then .err 401 "missing_api_key"
    else if !(wellFormedBearer s) then .err 401 "invalid_format"
    else tokenCheck ((pySplit s).getD 1 "") allowTokens

/-- `get_api_key` from `core/security.py` (not referenced by any route in
this repository; `chat.py` imports the endpoints variant instead). -/
def securityGetApiKey (authorization : Option String) (env : Environment)
    (allowTokens : List String) : AuthResult :=
  match authorization with
  | none => .err 401 "missing_api_key"
  | some s =>
    if s = "" then .err 401 "missing_api_key"
    else if !(wellFormedBearer s) then .err 401 "invalid_auth_format"
    else if !(tokenMatches ((pySplit s).getD 1 "")) then .err 401 "invalid_key_format"
    else if ((pySplit s).getD 1 "").length < MIN_TOKEN_LENGTH &&
        (env = .production || env = .staging) then
      .err 401 "invalid_key_length"
    else tokenCheck ((pySplit s).getD 1 "") allowTokens

/-- `Model` from `models/openai.py`. -/
structure Model where
  id : String
  object : String := "model"
  created : Nat
  owned_by : String := "openai-api-blueprint"
  deriving Repr, DecidableEq

/-- `AVAILABLE_MODELS` from `services/model_service.py`; `now` stands for
the `int(time.time())` taken at module import. -/
def AVAILABLE_MODELS (now : Nat) : List Model :=
  [ { id := "blueprint-standard", created := now - 10000 },
    { id := "blueprint-advanced", created := now - 20000 },
    { id := "blueprint-experimental", created := now - 5000 } ]

/-- Result of `model_service.get_model`: the model, or the 404
`HTTPException` with its error type and code. -/
inductive ModelLookup where
  | found (m : Model)
  | notFound (statusCode : Nat) (errType : String) (code : String)
  deriving Repr, DecidableEq

/-- `get_model` from `services/model_service.py`: linear scan of
`AVAILABLE_MODELS`, else 404 with type `invalid_request_error` and code
`model_not_found`. -/
def get_model (now : Nat) (model_id : String) : ModelLookup :=
  match (AVAILABLE_MODELS now).find? (fun m => m.id = model_id) with
  | some m => .found m
  | none => .notFound 404 "invalid_request_error" "model_not_found"

/-- `ChatMessage` from `models/openai.py` (the fields the embedded code
reads: role and optional content). -/
structure ChatMessage where
  role : String
  content : Option String
  deriving Repr, DecidableEq

/-- `ChatCompletionRequest` from `models/openai.py` (the fields the
embedded code reads; the generation parameters are opaque passthrough that
no embedded function inspects). -/
structure ChatCompletionRequest where
  model : String
  messages : List ChatMessage
  stream : Bool := false
  deriving Repr, DecidableEq

/-- The `delta` dict of a streaming chunk: an optional role-establishing
field and an optional content fragment.  `role = none, content = none`
is the empty terminal delta `{}`. -/
structure Delta where
  role : Option String
  content : Option String
  deriving Repr, DecidableEq

/-- One element of a chunk's `choices` list. -/
structure ChunkChoice where
  index : Nat
  delta : Delta
  finish_reason : Option String
  deriving Repr, DecidableEq

/-- One streaming chunk dict, as built in
`chat.py:generate_streaming_response`. -/
structure ChatCompletionChunk where
  id : String
  object : String
  created : Nat
  model : String
  choices : List ChunkChoice
  deriving Repr, DecidableEq

/-- The hardcoded streaming mock text in
`chat.py:generate_streaming_response` (and identically in
`services/chat_service.py`). -/
def streamingResponseContent : String :=
  "THIS IS THE MOCKED CHAT RESPONSE FROM OPENAI API BLUEPRINT. If you see this message, your chat endpoint is working correctly with streaming!"

/-- The hardcoded non-streaming mock text in
`chat.py:create_chat_completion` (and identically in
`services/chat_service.py`).  Note it ends differently from the streaming
text. -/
def nonStreamingContent : String :=
  "THIS IS THE MOCKED CHAT RESPONSE FROM OPENAI API BLUEPRINT. If you see this message, your chat endpoint is working correctly!"

/-- `words = response_content.split()` in the streaming generator. -/
def streamWords : List String := pySplit streamingResponseContent

/-- The chunk yielded for word number `i`: delta carries `role: assistant`
only on the first chunk, content is `word + " "` in both branches (the
inner conditional in the source is kept verbatim), `finish_reason` null. -/
def wordChunk (responseId : String) (created : Nat) (model : String)
    (i : Nat) (word : String) : ChatCompletionChunk :=
  { id := responseId
    object := "chat.completion.chunk"
    created := created
    model := model
    choices := [
      { index := 0
        delta :=
          if i > 0 then
            { role := none, content := some (if i > 0 then word ++ " " else word) }
          else
            { role := some "assistant", content := some (word ++ " ") }
        finish_reason := none } ] }

/-- The final chunk: empty delta, `finish_reason: "stop"`. -/
def terminalChunk (responseId : String) (created : Nat) (model : String) :
    ChatCompletionChunk :=
  { id := responseId
    object := "chat.completion.chunk"
    created := created
    model := model
    choices := [
      { index := 0
        delta := { role := none, content := none }
        finish_reason := some "stop" } ] }

/-- `chat.py:generate_streaming_response` as the list of chunks it yields,
in order.  `responseId` stands for the generated
`f"chatcmpl-{uuid.uuid4().hex}"`, `created` for `int(time.time())`. -/
def generate_streaming_response (responseId : String) (created : Nat)
    (request : ChatCompletionRequest) : List ChatCompletionChunk :=
  (streamWords.enum.map (fun p => wordChunk responseId created request.model p.1 p.2)) ++
    [terminalChunk responseId created request.model]

/-- `UsageInfo` from `models/openai.py`.  The code computes all three
fields with `len`, which is never negative, so `Nat` is faithful. -/
structure UsageInfo where
  prompt_tokens : Nat
  completion_tokens : Nat
  total_tokens : Nat
  deriving Repr, DecidableEq

/-- `ChatCompletionResponseMessage` from `models/openai.py`. -/
structure RespMessage where
  role : String
  content : Option String
  deriving Repr, DecidableEq

/-- `ChatCompletionResponseChoice` from `models/openai.py`. -/
structure RespChoice where
  index : Nat
  message : RespMessage
  finish_reason : String
  deriving Repr, DecidableEq

/-- `ChatCompletionResponse` from `models/openai.py`. -/
structure ChatCompletionResponse where
  id : String
  object : String := "chat.completion"
  created : Nat
  model : String
  choices : List RespChoice
  usage : UsageInfo
  deriving Repr, DecidableEq

/-- `"".join(msg.content or "" for msg in request.messages)`. -/
def joinedContents (messages : List ChatMessage) : String :=
  String.join (messages.map (fun m => m.content.getD ""))

/-- The non-streaming `ChatCompletionResponse` constructed in
`chat.py:create_chat_completion` (usage fields exactly as in the source:
`len` of the joined message contents, `len` of the mock text, and their
sum). -/
def nonStreamingResponse (responseId : String) (created : Nat)
    (request : ChatCompletionRequest) : ChatCompletionResponse :=
  { id := responseId
    created := created
    model := request.model
    choices := [
      { index := 0
        message := { role := "assistant", content := some nonStreamingContent }
        finish_reason := "stop" } ]
    usage :=
      { prompt_tokens := (joinedContents request.messages).length
        completion_tokens := nonStreamingContent.length
        total_tokens := (joinedContents request.messages).length +
          nonStreamingContent.length } }

/-- What the chat endpoint returns once authentication has succeeded. -/
inductive ChatEndpointResult where
  | streamed (chunks : List ChatCompletionChunk)
  | completed (statusCode : Nat) (response : ChatCompletionResponse)
  deriving Repr, DecidableEq

/-- `chat.py:create_chat_completion` after the auth dependency: branch on
`request.stream`, otherwise answer 200 with the mocked completion.  The
source contains no model-registry check and raises no `HTTPException` of
its own, which the return type makes explicit. -/
def create_chat_completion (responseId : String) (created : Nat)
    (request : ChatCompletionRequest) : ChatEndpointResult :=
  if request.stream then
    .streamed (generate_streaming_response responseId created request)
  else
    .completed 200 (nonStreamingResponse responseId created request)

/-- Lower-case hexadecimal digit, as used by `json.dumps` in `\uXXXX`
escapes: code points 48-57 for values below ten, 97-102 for ten to
fifteen. -/
def hexDig (n : Nat) : Char :=
  if n < 10 then Char.ofNat (48 + n)
  else if n < 16 then Char.ofNat (87 + n)
  else '0'

/-- Escape of a single character inside a JSON string, following
`json.dumps(..., ensure_ascii=False)`: the two-character escapes for
quote, backslash and the named control characters, `\u00XX` for the
remaining control characters, every other character verbatim. -/
def jsonEscapeChar (c : Char) : String :=
  if c = '"' then "\\\""
  else if c = '\\' then "\\\\"
  else if c = '\n' then "\\n"
  else if c = '\r' then "\\r"
  else if c = '\t' then "\\t"
  else if c = Char.ofNat 8 then "\\b"
  else if c = Char.ofNat 12 then "\\f"
  else if c.toNat < 32 then
    String.mk ['\\', 'u', '0', '0', hexDig (c.toNat / 16), hexDig (c.toNat % 16)]
  else
    String.mk [c]

/-- JSON string literal for `s`. -/
def jsonStr (s : String) : String :=
  "\"" ++ String.join (s.data.map jsonEscapeChar) ++ "\""

/-- Decimal digits of `n`, most significant first, via the fuelled helper
(`fuel ≥ n` suffices; callers pass `n + 1`). -/
def natDigitsAux : Nat → Nat → List Char → List Char
  | 0, _, acc => acc
  | fuel + 1, n, acc =>
    let d := hexDig (n % 10)
    if n < 10 then d :: acc
    else natDigitsAux fuel (n / 10) (d :: acc)

/-- Decimal rendering of a natural number, as `json.dumps` prints the
integer fields (`created`, `index`). -/
def natRepr (n : Nat) : String := String.mk (natDigitsAux (n + 1) n [])

/-- `", ".join`-style concatenation matching `json.dumps`'s default item
separator layout. -/
def joinSep (sep : String) : List String → String
  | [] => ""
  | [x] => x
  | x :: y :: rest => x ++ sep ++ joinSep sep (y :: rest)

/-- JSON for a `delta` dict: key order follows the dict literals in
`generate_streaming_response` (`role` before `content` in the first
chunk). -/
def deltaJson (d : Delta) : String :=
  match d.role, d.content with
  | some r, some c =>
    "\x7b\"role\": " ++ jsonStr r ++ ", \"content\": " ++ jsonStr c ++ "\x7d"
  | some r, none => "\x7b\"role\": " ++ jsonStr r ++ "\x7d"
  | none, some c => "\x7b\"content\": " ++ jsonStr c ++ "\x7d"
  | none, none => "\x7b\x7d"

/-- JSON for a `finish_reason` value (`null` or a string). -/
def finishJson : Option String → String
  | none => "null"
  | some s => jsonStr s

/-- JSON for one element of `choices`. -/
def choiceJson (ch : ChunkChoice) : String :=
  "\x7b\"index\": " ++ natRepr ch.index ++ ", \"delta\": " ++ deltaJson ch.delta ++
    ", \"finish_reason\": " ++ finishJson ch.finish_reason ++ "\x7d"

/-- `json.dumps(chunk, ensure_ascii=False)` for a streaming chunk dict,
keys in the literal's insertion order. -/
def chunkJson (c : ChatCompletionChunk) : String :=
  "\x7b\"id\": " ++ jsonStr c.id ++ ", \"object\": " ++ jsonStr c.object ++
    ", \"created\": " ++ natRepr c.created ++ ", \"model\": " ++ jsonStr c.model ++
    ", \"choices\": [" ++ joinSep ", " (c.choices.map choiceJson) ++ "]\x7d"

/-- `StreamingResponse._serialize_chunk` from `utils/stream.py`:
`f"data: {json_data}\n\n"`, instantiated at the chunk dicts this service
streams. -/
def serialize_chunk (c : ChatCompletionChunk) : String :=
  "data: " ++ chunkJson c ++ "\n\n"

/-- `StreamingResponse._serialize_done` from `utils/stream.py`. -/
def serializeDone : String := "data: [DONE]\n\n"

/-- The body frames `StreamingResponse.stream_response` sends for a chunk
list: each chunk serialized in order, then the `[DONE]` sentinel.  (The
transport then closes with a zero-byte `more_body: False` message, which
contributes no frame bytes.) -/
def streamFrames (chunks : List ChatCompletionChunk) : List String :=
  chunks.map serialize_chunk ++ [serializeDone]

/-- A chunk is terminal iff some choice carries a non-null
`finish_reason` (in this service: the final empty-delta chunk). -/
def isTerminalChunk (c : ChatCompletionChunk) : Bool :=
  c.choices.any (fun ch => ch.finish_reason.isSome)

/-- Concatenation, in emission order, of the `content` fields of all
non-terminal deltas of a chunk list (absent content contributes ""). -/
def deltaContentConcat (chunks : List ChatCompletionChunk) : String :=
  String.join ((chunks.filter (fun c => !isTerminalChunk c)).map
    (fun c => String.join (c.choices.map (fun ch => ch.delta.content.getD ""))))

/-- Total length of the input message content of a request: the sum of the
code-point lengths of each message's content. -/
def totalContentLen (messages : List ChatMessage) : Nat :=
  (messages.map (fun m => (m.content.getD "").length)).sum

/-- `True` on the accepting outcome of an auth gate. -/
def isOk : AuthResult → Bool
  | .ok _ => true
  | .err _ _ => false

/-- A string is newline-free: no raw `'\n'` code point in its data. -/
def noNL (s : String) : Bool := s.data.all (fun x => x != '\n')

/-- The request of the repository's own test
`tests/api/v1/test_chat.py::test_chat_completion_invalid_model`: an
unregistered model id with a valid API key. -/
def c1Request : ChatCompletionRequest :=
  { model := "not-a-real-model"
    messages := [{ role := "user", content := some "Hello!" }]
    stream := false }

/-- A concrete streaming chat request against a registered model. -/
def c2Request : ChatCompletionRequest :=
  { model := "blueprint-standard"
    messages := [{ role := "user", content := some "Hello!" }]
    stream := true }

/-- The same input as `c2Request` with the streaming flag off. -/
def c2RequestNS : ChatCompletionRequest :=
  { model := "blueprint-standard"
    messages := [{ role := "user", content := some "Hello!" }]
    stream := false }

/-! ### Helper lemmas -/

/-- A serialized chunk frame is never the `[DONE]` sentinel frame: the
seventh byte of a chunk frame is the JSON object opener, the sentinel's is
the bracket of `[DONE]`. -/
theorem serialize_chunk_ne_done (c : ChatCompletionChunk) :
    serialize_chunk c ≠ serializeDone := by
  intro h
  have hL : (serialize_chunk c).data.get? 6 = some '{' := rfl
  rw [h] at hL
  exact absurd hL (by decide)

/-- Every chunk the streaming generator emits carries the generator's
response id, timestamp, the chunk object tag, and only choice index 0. -/
theorem chunk_fields (rid : String) (created : Nat) (request : ChatCompletionRequest) :
    ∀ c ∈ generate_streaming_response rid created request,
      c.id = rid ∧ c.created = created ∧ c.object = "chat.completion.chunk" ∧
      ∀ ch ∈ c.choices, ch.index = 0 := by
  intro c hc
  rcases List.mem_append.mp hc with h | h
  · rcases List.mem_map.mp h with ⟨p, _, rfl⟩
    refine ⟨rfl, rfl, rfl, ?_⟩
    intro ch hch
    rw [List.mem_singleton.mp hch]
  · rw [List.mem_singleton.mp h]
    refine ⟨rfl, rfl, rfl, ?_⟩
    intro ch hch
    rw [List.mem_singleton.mp hch]

/-- Word chunks are not terminal: their single choice has a null
`finish_reason`. -/
theorem wordChunk_not_terminal (rid : String) (created : Nat) (model : String)
    (i : Nat) (w : String) : isTerminalChunk (wordChunk rid created model i w) = false := by
  simp [isTerminalChunk, wordChunk]

/-- Folding string concatenation sums the lengths. -/
theorem length_foldl_append (l : List String) (acc : String) :
    (l.foldl (fun r s => r ++ s) acc).length = acc.length + (l.map String.length).sum := by
  induction l generalizing acc with
  | nil => simp
  | cons s rest ih =>
    simp only [List.foldl_cons, ih, List.map_cons, List.sum_cons, String.length_append]
    omega

/-- The length of the joined message contents is the total content
length. -/
theorem joinedContents_length (messages : List ChatMessage) :
    (joinedContents messages).length = totalContentLen messages := by
  show (List.foldl (fun r s => r ++ s) "" _).length = _
  rw [length_foldl_append]
  simp only [totalContentLen, List.map_map]
  rw [show ("" : String).length = 0 from rfl, Nat.zero_add]
  rfl

/-- `noNL` in its quantified form. -/
theorem noNL_iff (s : String) : noNL s = true ↔ ∀ x ∈ s.data, x ≠ '\n' := by
  simp [noNL, List.all_eq_true]

/-- Newline-freedom is preserved by concatenation. -/
theorem noNL_append (a b : String) (ha : noNL a = true) (hb : noNL b = true) :
    noNL (a ++ b) = true := by
  rw [noNL_iff] at *
  intro x hx
  rcases List.mem_append.mp hx with h | h
  · exact ha x h
  · exact hb x h

/-- Hexadecimal digits are not the newline character. -/
theorem hexDig_ne_nl (n : Nat) : hexDig n ≠ '\n' := by
  unfold hexDig
  split_ifs with h1 h2
  · interval_cases n <;> decide
  · have h10 : 10 ≤ n := Nat.le_of_not_lt h1
    interval_cases n <;> decide
  · decide

/-- The escape of any character contains no raw newline. -/
theorem noNL_jsonEscapeChar (c : Char) : noNL (jsonEscapeChar c) = true := by
  unfold jsonEscapeChar
  split_ifs with h1 h2 h3 h4 h5 h6 h7 h8
  · decide
  · decide
  · decide
  · decide
  · decide
  · decide
  · decide
  · rw [noNL_iff]
    intro x hx
    have hx2 : x ∈ ['\\', 'u', '0', '0', hexDig (c.toNat / 16), hexDig (c.toNat % 16)] := hx
    simp only [List.mem_cons, List.not_mem_nil, or_false] at hx2
    rcases hx2 with rfl | rfl | rfl | rfl | rfl | rfl
    · decide
    · decide
    · decide
    · decide
    · exact hexDig_ne_nl _
    · exact hexDig_ne_nl _
  · rw [noNL_iff]
    intro x hx
    have hx2 : x ∈ [c] := hx
    rw [List.mem_singleton.mp hx2]
    intro heq
    exact h8 (by rw [heq]; decide)

/-- Newline-freedom of a fold of concatenations. -/
theorem noNL_foldl (l : List String) (acc : String) (hacc : noNL acc = true)
    (h : ∀ s ∈ l, noNL s = true) : noNL (l.foldl (fun r s => r ++ s) acc) = true := by
  induction l generalizing acc with
  | nil => simpa using hacc
  | cons s rest ih =>
    simp only [List.foldl_cons]
    exact ih _ (noNL_append _ _ hacc (h s (by simp))) (fun t ht => h t (by simp [ht]))

/-- Newline-freedom of `String.join`. -/
theorem noNL_join (l : List String) (h : ∀ s ∈ l, noNL s = true) :
    noNL (String.join l) = true :=
  noNL_foldl l "" (by decide) h

/-- JSON string literals produced by `jsonStr` contain no raw newline. -/
theorem noNL_jsonStr (s : String) : noNL (jsonStr s) = true := by
  unfold jsonStr
  refine noNL_append _ _ (noNL_append _ _ (by decide) ?_) (by decide)
  refine noNL_join _ ?_
  intro t ht
  rcases List.mem_map.mp ht with ⟨c, _, rfl⟩
  exact noNL_jsonEscapeChar c

/-- Characters accumulated by `natDigitsAux` are digits or come from the
accumulator. -/
theorem natDigitsAux_ne_nl : ∀ (fuel n : Nat) (acc : List Char),
    (∀ x ∈ acc, x ≠ '\n') → ∀ x ∈ natDigitsAux fuel n acc, x ≠ '\n' := by
  intro fuel
  induction fuel with
  | zero => intro n acc h; exact h
  | succ f ih =>
    intro n acc h x hx
    unfold natDigitsAux at hx
    by_cases hn : n < 10
    · simp only [hn, if_true] at hx
      rcases List.mem_cons.mp hx with rfl | hx
      · exact hexDig_ne_nl _
      · exact h x hx
    · simp only [hn, if_false] at hx
      refine ih (n / 10) _ ?_ x hx
      intro y hy
      rcases List.mem_cons.mp hy with rfl | hy
      · exact hexDig_ne_nl _
      · exact h y hy

/-- Decimal renderings contain no raw newline. -/
theorem noNL_natRepr (n : Nat) : noNL (natRepr n) = true := by
  rw [noNL_iff]
  exact natDigitsAux_ne_nl (n + 1) n [] (by simp)

/-- Delta JSON contains no raw newline. -/
theorem noNL_deltaJson (d : Delta) : noNL (deltaJson d) = true := by
  rcases d with ⟨r, c⟩
  cases r with
  | none =>
    cases c with
    | none => decide
    | some cc =>
      show noNL ("\x7b\"content\": " ++ jsonStr cc ++ "\x7d") = true
      exact noNL_append _ _ (noNL_append _ _ (by decide) (noNL_jsonStr _)) (by decide)
  | some rr =>
    cases c with
    | none =>
      show noNL ("\x7b\"role\": " ++ jsonStr rr ++ "\x7d") = true
      exact noNL_append _ _ (noNL_append _ _ (by decide) (noNL_jsonStr _)) (by decide)
    | some cc =>
      show noNL ("\x7b\"role\": " ++ jsonStr rr ++ ", \"content\": " ++ jsonStr cc ++ "\x7d") = true
      exact noNL_append _ _ (noNL_append _ _ (noNL_append _ _
        (noNL_append _ _ (by decide) (noNL_jsonStr _)) (by decide)) (noNL_jsonStr _)) (by decide)

/-- `finish_reason` JSON contains no raw newline. -/
theorem noNL_finishJson (o : Option String) : noNL (finishJson o) = true := by
  cases o with
  | none => decide
  | some s => exact noNL_jsonStr s

/-- Choice JSON contains no raw newline. -/
theorem noNL_choiceJson (ch : ChunkChoice) : noNL (choiceJson ch) = true := by
  unfold choiceJson
  exact noNL_append _ _ (noNL_append _ _ (noNL_append _ _ (noNL_append _ _
    (noNL_append _ _ (noNL_append _ _ (by decide) (noNL_natRepr _)) (by decide))
    (noNL_deltaJson _)) (by decide)) (noNL_finishJson _)) (by decide)

/-- `joinSep` preserves newline-freedom. -/
theorem noNL_joinSep (sep : String) (hsep : noNL sep = true) :
    ∀ l : List String, (∀ s ∈ l, noNL s = true) → noNL (joinSep sep l) = true := by
  intro l
  induction l with
  | nil => intro _; exact rfl
  | cons x rest ih =>
    intro h
    cases rest with
    | nil => simpa [joinSep] using h x (by simp)
    | cons y rest2 =>
      show noNL (x ++ sep ++ joinSep sep (y :: rest2)) = true
      exact noNL_append _ _ (noNL_append _ _ (h x (by simp)) hsep)
        (ih (fun s hs => h s (by simp [hs])))

/-- The whole JSON payload of a chunk contains no raw newline. -/
theorem noNL_chunkJson (c : ChatCompletionChunk) : noNL (chunkJson c) = true := by
  unfold chunkJson
  have hjoin : noNL (joinSep ", " (c.choices.map choiceJson)) = true := by
    refine noNL_joinSep ", " (by decide) _ ?_
    intro s hs
    rcases List.mem_map.mp hs with ⟨ch, _, rfl⟩
    exact noNL_choiceJson ch
  exact noNL_append _ _ (noNL_append _ _ (noNL_append _ _ (noNL_append _ _
    (noNL_append _ _ (noNL_append _ _ (noNL_append _ _ (noNL_append _ _
    (noNL_append _ _ (noNL_append _ _ (by decide) (noNL_jsonStr _)) (by decide))
    (noNL_jsonStr _)) (by decide)) (noNL_natRepr _)) (by decide)) (noNL_jsonStr _))
    (by decide)) hjoin) (by decide)

/-! ### Claim theorems -/

/-- Claim C1, evidence of the code bug: at the input of the repository's
own test `test_chat_completion_invalid_model` — an authenticated chat
request for the unregistered model id "not-a-real-model" — the chat
endpoint answers 200 with the mocked completion instead of a 400 with code
`model_not_found` (it performs no registry check at all), whereas the
models-lookup service does answer 404 with code `model_not_found` for the
same unknown id, and finds registered ids. -/
theorem c1_chat_endpoint_skips_model_check :
    create_chat_completion "chatcmpl-0" 0 c1Request =
      .completed 200 (nonStreamingResponse "chatcmpl-0" 0 c1Request)
    ∧ (∀ now, get_model now "not-a-real-model" =
        .notFound 404 "invalid_request_error" "model_not_found")
    ∧ (∀ now, get_model now "blueprint-standard" =
        .found { id := "blueprint-standard", created := now - 10000 }) :=
  ⟨rfl, fun _ => rfl, fun _ => rfl⟩

/-- Claim C2, counterexample: for a concrete request, the concatenation of
the non-terminal streaming deltas does not equal the non-streaming
completion's content, not even after stripping trailing whitespace — the
two mock texts end differently. -/
theorem c2_roundtrip_counterexample :
    (nonStreamingResponse "chatcmpl-0" 0 c2RequestNS).choices.map
        (fun ch => ch.message.content) = [some nonStreamingContent]
    ∧ decide (rstripWs (deltaContentConcat
        (generate_streaming_response "chatcmpl-0" 0 c2Request)) = nonStreamingContent) = false
    ∧ decide (deltaContentConcat (generate_streaming_response "chatcmpl-0" 0 c2Request)
        = nonStreamingContent) = false := by
  decide

/-- Claim C2 as amended: concatenating the `content` fields of all
non-terminal streaming deltas, in emission order, yields the streaming mock
text plus one trailing space (so, modulo trailing whitespace, exactly the
streaming mock text); that text is not the non-streaming completion's
content, which ends "working correctly!" where the streaming text ends
"working correctly with streaming!". -/
theorem c2_roundtrip_amended (rid : String) (created : Nat)
    (request : ChatCompletionRequest) :
    deltaContentConcat (generate_streaming_response rid created request) =
      streamingResponseContent ++ " "
    ∧ rstripWs (deltaContentConcat (generate_streaming_response rid created request)) =
      streamingResponseContent
    ∧ decide (streamingResponseContent = nonStreamingContent) = false :=
  ⟨rfl, rfl, rfl⟩

/-- Claim C3, counterexample: the auth gate used by the authenticated
endpoints classifies the malformed header "Token abc" with error code
`invalid_format`, not `invalid_auth_format` as claimed. -/
theorem c3_malformed_header_code_counterexample :
    endpointGetApiKey (some "Token abc") ["test_key_12345678"] = .err 401 "invalid_format"
    ∧ decide (endpointGetApiKey (some "Token abc") ["test_key_12345678"] =
        .err 401 "invalid_auth_format") = false := by
  decide

/-- Claim C3 as amended: an absent header is rejected 401 `missing_api_key`
by both gates; a header that does not parse as two space-separated parts
with the first case-insensitively "Bearer" is rejected 401 with code
`invalid_format` by the gate wired to the endpoints
(`api/v1/endpoints/models.py`), while the unused `core/security.py` gate
uses `invalid_auth_format` for the same input. -/
theorem c3_auth_rejection_codes (allowTokens : List String) (env : Environment)
    (s : String) (hs : s ≠ "") (hm : wellFormedBearer s = false) :
    endpointGetApiKey none allowTokens = .err 401 "missing_api_key"
    ∧ securityGetApiKey none env allowTokens = .err 401 "missing_api_key"
    ∧ endpointGetApiKey (some s) allowTokens = .err 401 "invalid_format"
    ∧ securityGetApiKey (some s) env allowTokens = .err 401 "invalid_auth_format" := by
  refine ⟨rfl, rfl, ?_, ?_⟩
  · simp [endpointGetApiKey, hs, hm]
  · simp [securityGetApiKey, hs, hm]

/-- Witness for the amended C3 at the concrete inputs of the claim. -/
theorem c3_auth_rejection_codes_witness :
    endpointGetApiKey none ["test_key_12345678"] = .err 401 "missing_api_key"
    ∧ securityGetApiKey none .test ["test_key_12345678"] = .err 401 "missing_api_key"
    ∧ endpointGetApiKey (some "Token abc") ["test_key_12345678"] = .err 401 "invalid_format"
    ∧ securityGetApiKey (some "Token abc") .test ["test_key_12345678"] =
        .err 401 "invalid_auth_format" :=
  c3_auth_rejection_codes ["test_key_12345678"] .test "Token abc" (by decide) (by decide)

/-- Claim C4: every stream has exactly one terminal chunk — the last one,
an empty delta with finish reason "stop" — no content chunk after it, and
the frame sequence ends with exactly one `[DONE]` sentinel, strictly after
all chunk frames. -/
theorem c4_stream_termination (rid : String) (created : Nat)
    (request : ChatCompletionRequest) :
    (generate_streaming_response rid created request).countP isTerminalChunk = 1
    ∧ (generate_streaming_response rid created request).getLast? =
        some (terminalChunk rid created request.model)
    ∧ (terminalChunk rid created request.model).choices =
        [{ index := 0, delta := { role := none, content := none },
           finish_reason := some "stop" }]
    ∧ (generate_streaming_response rid created request).dropLast.countP isTerminalChunk = 0
    ∧ streamFrames (generate_streaming_response rid created request) =
        (generate_streaming_response rid created request).map serialize_chunk ++ [serializeDone]
    ∧ (streamFrames (generate_streaming_response rid created request)).count serializeDone = 1
    ∧ (streamFrames (generate_streaming_response rid created request)).getLast? =
        some serializeDone := by
  have hword : ∀ c ∈ streamWords.enum.map
      (fun p => wordChunk rid created request.model p.1 p.2),
      isTerminalChunk c = false := by
    intro c hc
    rcases List.mem_map.mp hc with ⟨p, _, rfl⟩
    exact wordChunk_not_terminal rid created request.model p.1 p.2
  refine ⟨?_, ?_, rfl, ?_, rfl, ?_, ?_⟩
  · unfold generate_streaming_response
    rw [List.countP_append,
      List.countP_eq_zero.mpr (fun c hc => by simp [hword c hc])]
    rfl
  · unfold generate_streaming_response
    exact List.getLast?_concat _
  · unfold generate_streaming_response
    rw [List.dropLast_concat]
    exact List.countP_eq_zero.mpr (fun c hc => by simp [hword c hc])
  · have hnotin : serializeDone ∉
        (generate_streaming_response rid created request).map serialize_chunk := by
      intro hmem
      rcases List.mem_map.mp hmem with ⟨c, _, hser⟩
      exact serialize_chunk_ne_done c hser
    unfold streamFrames
    rw [List.count_append, List.count_eq_zero.mpr hnotin]
    rfl
  · unfold streamFrames
    exact List.getLast?_concat _

/-- Claim C5: with a non-empty allow-list, the gate's allow-list stage
accepts (returns unchanged) every token in the list, and rejects every
well-formed token outside the list with 401 `invalid_key`. -/
theorem c5_allowlist_decides (allowTokens : List String) (t : String)
    (hne : allowTokens ≠ []) :
    (allowTokens.contains t = true → tokenCheck t allowTokens = .ok t)
    ∧ (tokenMatches t = true → allowTokens.contains t = false →
        tokenCheck t allowTokens = .err 401 "invalid_key") := by
  have hempty : allowTokens.isEmpty = false := by
    cases allowTokens with
    | nil => exact absurd rfl hne
    | cons a l => rfl
  constructor
  · intro hmem
    unfold tokenCheck
    rw [hempty, hmem]
    rfl
  · intro _ hnot
    unfold tokenCheck
    rw [hnot, Bool.not_false, Bool.or_true]
    rfl

/-- Witness for C5: a listed token is accepted, an unlisted well-formed
token is rejected with `invalid_key`. -/
theorem c5_allowlist_decides_witness :
    tokenCheck "test_key_12345678" ["test_key_12345678"] = .ok "test_key_12345678"
    ∧ tokenCheck "other_key_1234567" ["test_key_12345678"] = .err 401 "invalid_key" :=
  ⟨(c5_allowlist_decides ["test_key_12345678"] "test_key_12345678" (by decide)).1 (by decide),
   (c5_allowlist_decides ["test_key_12345678"] "other_key_1234567" (by decide)).2
     (by decide) (by decide)⟩

/-- Claim C6: every chunk frame is exactly `data: ` + JSON + `\n\n`, and
the JSON payload contains no raw newline character. -/
theorem c6_sse_frame_format (c : ChatCompletionChunk) :
    serialize_chunk c = "data: " ++ chunkJson c ++ "\n\n"
    ∧ noNL (chunkJson c) = true :=
  ⟨rfl, noNL_chunkJson c⟩

/-- Claim C7: in every non-streaming completion response the usage counts
are additive and (as integers) non-negative. -/
theorem c7_usage_counts (rid : String) (created : Nat)
    (request : ChatCompletionRequest) :
    (nonStreamingResponse rid created request).usage.total_tokens =
      (nonStreamingResponse rid created request).usage.prompt_tokens +
        (nonStreamingResponse rid created request).usage.completion_tokens
    ∧ 0 ≤ ((nonStreamingResponse rid created request).usage.prompt_tokens : Int)
    ∧ 0 ≤ ((nonStreamingResponse rid created request).usage.completion_tokens : Int)
    ∧ 0 ≤ ((nonStreamingResponse rid created request).usage.total_tokens : Int) :=
  ⟨rfl, Int.natCast_nonneg _, Int.natCast_nonneg _, Int.natCast_nonneg _⟩

/-- Claim C8: prompt_tokens is strictly monotone in the total input
message content length. -/
theorem c8_prompt_tokens_monotone (rid₁ rid₂ : String) (created₁ created₂ : Nat)
    (req₁ req₂ : ChatCompletionRequest)
    (h : totalContentLen req₂.messages < totalContentLen req₁.messages) :
    (nonStreamingResponse rid₂ created₂ req₂).usage.prompt_tokens <
      (nonStreamingResponse rid₁ created₁ req₁).usage.prompt_tokens := by
  show (joinedContents req₂.messages).length < (joinedContents req₁.messages).length
  rw [joinedContents_length, joinedContents_length]
  exact h

/-- Witness for C8 at two concrete requests ("Hi" vs "Hello!"). -/
theorem c8_prompt_tokens_monotone_witness :
    (nonStreamingResponse "chatcmpl-b" 5
        { model := "blueprint-standard",
          messages := [{ role := "user", content := some "Hi" }] }).usage.prompt_tokens <
      (nonStreamingResponse "chatcmpl-a" 5
        { model := "blueprint-standard",
          messages := [{ role := "user", content := some "Hello!" }] }).usage.prompt_tokens :=
  c8_prompt_tokens_monotone "chatcmpl-a" "chatcmpl-b" 5 5
    { model := "blueprint-standard",
      messages := [{ role := "user", content := some "Hello!" }] }
    { model := "blueprint-standard",
      messages := [{ role := "user", content := some "Hi" }] }
    (by decide)

/-- Claim C9: with an empty allow-list the allow-list stage rejects every
token with 401 `invalid_key`, and the endpoint gate never accepts any
request. -/
theorem c9_empty_allowlist_fails_closed (authorization : Option String) (t : String) :
    tokenCheck t [] = .err 401 "invalid_key"
    ∧ isOk (endpointGetApiKey authorization []) = false := by
  refine ⟨rfl, ?_⟩
  cases authorization with
  | none => rfl
  | some s =>
    change isOk (if s = "" then AuthResult.err 401 "missing_api_key"
      else if (!wellFormedBearer s) = true then AuthResult.err 401 "invalid_format"
      else tokenCheck ((pySplit s).getD 1 "") []) = false
    by_cases h1 : s = ""
    · rw [if_pos h1]
      rfl
    · rw [if_neg h1]
      by_cases h2 : wellFormedBearer s
      · rw [h2]
        rfl
      · rw [(by simpa using h2 : wellFormedBearer s = false)]
        rfl

/-- Claim C10: within one stream every chunk — terminal included — carries
the stream's response id, its creation timestamp (both equal to the first
chunk's), the object tag "chat.completion.chunk", and only choice
index 0. -/
theorem c10_chunk_header_invariants (rid : String) (created : Nat)
    (request : ChatCompletionRequest) :
    (generate_streaming_response rid created request).head? =
      some (wordChunk rid created request.model 0 "THIS")
    ∧ (generate_streaming_response rid created request).all
        (fun c => c.id = rid && c.created = created &&
          c.object = "chat.completion.chunk" &&
          c.choices.all (fun ch => ch.index = 0)) = true := by
  refine ⟨rfl, ?_⟩
  rw [List.all_eq_true]
  intro c hc
  obtain ⟨h1, h2, h3, h4⟩ := chunk_fields rid created request c hc
  simp only [Bool.and_eq_true, decide_eq_true_eq]
  refine ⟨⟨⟨h1, h2⟩, h3⟩, ?_⟩
  rw [List.all_eq_true]
  intro ch hch
  simp [h4 ch hch]

end Blueprint
